import Mathlib

/-!
Verification development for the Spothole pothole-report service
(`src/models/Pothole.js`, `src/routes/potholeRoutes.js`, `server.js`).

The route handlers are embedded as pure functions over an explicit
repository state.  JavaScript numbers produced by `parseFloat` are
modelled as `Option ℚ`, with `none` playing the role of `NaN`.
Timestamps (`Date.now()`) are natural numbers; every timestamp taken
during a single request is the same value `now`.  MongoDB object ids
are modelled as natural numbers.
-/

namespace Spothole

/-- GPS sub-document of a pothole record (`gps.longitude` / `gps.latitude`
in `src/models/Pothole.js`).  `none` models a stored `NaN`. -/
structure GPS where
  longitude : Option ℚ
  latitude : Option ℚ
deriving DecidableEq

/-- A stored pothole report, following the schema in `src/models/Pothole.js`.
Numeric fields are `Option ℚ` (`none` = `NaN`); `vehicle_name` is `Option`
because the raw request field may be absent (`undefined`). -/
structure PotholeRecord where
  id : Nat
  distance : Option ℚ
  image : String
  gps : GPS
  vehicle_name : Option String
  vehicle_ground_level : Option ℚ
  pothole_status : String
  reportedBy : Nat
  createdAt : Nat
  updatedAt : Nat
deriving DecidableEq

/-- The shared mutable state visible to the route handlers: the MongoDB
collection of pothole documents, the next fresh object id, and the set of
image files present on disk under `public/uploads`. -/
structure RepoState where
  records : List PotholeRecord
  nextId : Nat
  files : Finset String
deriving DecidableEq

/-- The allowed `pothole_status` values, from the schema enum in
`src/models/Pothole.js` and the membership check in the update route. -/
def allowedStatuses : List String := ["pending", "inprocess", "completed"]

/-- Numeric value of a list of decimal digit characters. -/
def digitsVal (cs : List Char) : Nat :=
  cs.foldl (fun acc c => acc * 10 + (c.toNat - 48)) 0

/-- Models the JavaScript `parseFloat` builtin on decimal input, as used in
the register route: leading whitespace is skipped, an optional sign and the
longest prefix of `digits [ . digits ]` is converted; when the argument is
`undefined` (`none`) or no digits are found the result is `NaN` (`none`).
Exponent forms are not modelled; no claim depends on them. -/
def parseFloat (raw : Option String) : Option ℚ :=
  match raw with
  | none => none
  | some s =>
    let cs0 := s.toList.dropWhile (fun c => c = ' ')
    let signed : Bool × List Char :=
      match cs0 with
      | '-' :: rest => (true, rest)
      | '+' :: rest => (false, rest)
      | _ => (false, cs0)
    let intPart := signed.2.takeWhile Char.isDigit
    let rest := signed.2.dropWhile Char.isDigit
    let fracPart :=
      match rest with
      | '.' :: r => r.takeWhile Char.isDigit
      | _ => []
    if intPart.isEmpty && fracPart.isEmpty then none
    else
      let n : Nat := digitsVal intPart * 10 ^ fracPart.length + digitsVal fracPart
      let sn : Int := if signed.1 then -(n : Int) else (n : Int)
      some (mkRat sn (10 ^ fracPart.length))

/-- The raw multipart body of a registration request
(`POST /api/potholes/register`).  Each text field is `Option String`
(`none` = absent, i.e. `undefined` in `req.body`); `image` is the uploaded
file name (`req.file`), `none` when no file was uploaded. -/
structure Submission where
  distance : Option String
  longitude : Option String
  latitude : Option String
  vehicle_name : Option String
  vehicle_ground_level : Option String
  image : Option String
deriving DecidableEq

/-- Outcome of the register route: HTTP 201 with the created document, or
HTTP 400 with a validation message. -/
inductive RegisterResult where
  | created : PotholeRecord → RegisterResult
  | validationError : String → RegisterResult
deriving DecidableEq

/-- Modelled from the spec: `Pothole.create` is Mongoose `Model.create`
together with the schema defaults and the `pre("save")` hook of
`src/models/Pothole.js`; the Mongoose implementation is not among the
repository's sources.  Per spec section 4.2 the repository performs pure
persistence: it assigns `id`, sets `createdAt` and `updatedAt` (equal at
creation, both the request's `now`), defaults `status` to `"pending"` when
not supplied (the route never supplies it), and stores the document as
given, parsed numeric values included. -/
def createRecord (st : RepoState) (doc : PotholeRecord) : PotholeRecord × RepoState :=
  (doc, { st with records := st.records ++ [doc], nextId := st.nextId + 1 })

/-- The register route handler (`router.post("/register")`,
`src/routes/potholeRoutes.js` lines 47-92).  If no file was uploaded it
answers 400 `"Image is required"` before any repository access; otherwise
multer has stored the uploaded file and the handler creates the document
with `parseFloat`-converted numeric fields. -/
def register (st : RepoState) (sub : Submission) (userId : Nat) (now : Nat) :
    RegisterResult × RepoState :=
  match sub.image with
  | none => (RegisterResult.validationError "Image is required", st)
  | some filename =>
    let imagePath := "/public/uploads/" ++ filename
    let stored := { st with files := insert imagePath st.files }
    let doc : PotholeRecord :=
      { id := st.nextId
        distance := parseFloat sub.distance
        image := imagePath
        gps := { longitude := parseFloat sub.longitude, latitude := parseFloat sub.latitude }
        vehicle_name := sub.vehicle_name
        vehicle_ground_level := parseFloat sub.vehicle_ground_level
        pothole_status := "pending"
        reportedBy := userId
        createdAt := now
        updatedAt := now }
    let res := createRecord stored doc
    (RegisterResult.created res.1, res.2)

/-- Outcome of the single-record fetch route. -/
inductive GetResult where
  | ok : PotholeRecord → GetResult
  | notFound : GetResult
deriving DecidableEq

/-- The detail route handler (`router.get("/:id")`, lines 132-156):
`Pothole.findById` followed by a 404 check.  The `populate` of the
reporter's public identity does not change which record is returned and is
not modelled. -/
def getById (st : RepoState) (id : Nat) : GetResult :=
  match st.records.find? (fun r => r.id == id) with
  | some r => GetResult.ok r
  | none => GetResult.notFound

/-- Outcome of the status-update route: 200 with the updated document,
400 for an invalid status value, or 404. -/
inductive UpdateResult where
  | ok : PotholeRecord → UpdateResult
  | validationError : String → UpdateResult
  | notFound : UpdateResult
deriving DecidableEq

/-- The status-update route handler (`router.put("/update/:id")`,
lines 161-196): the membership check on `pothole_status` runs first, before
any repository access; then `findByIdAndUpdate` sets `pothole_status` and
`updatedAt: Date.now()` on the matching document (modelled by replacing the
matching document in the collection) and returns the new document, or 404
when no document has the id. -/
def updateStatus (st : RepoState) (id : Nat) (s : String) (now : Nat) :
    UpdateResult × RepoState :=
  if s ∉ allowedStatuses then
    (UpdateResult.validationError "Invalid status value", st)
  else
    match st.records.find? (fun r => r.id == id) with
    | none => (UpdateResult.notFound, st)
    | some r =>
      let r' := { r with pothole_status := s, updatedAt := now }
      (UpdateResult.ok r',
        { st with records := st.records.map (fun q => if q.id == id then r' else q) })

/-- Outcome of the delete route. -/
inductive RemoveResult where
  | ok : RemoveResult
  | notFound : RemoveResult
deriving DecidableEq

/-- The delete route handler (`router.delete("/:id")`, lines 201-230):
looks the document up (404 when absent), removes the image file only when
`fs.existsSync` says it is present — an already-absent file is skipped, not
an error — and then deletes the document. -/
def removePothole (st : RepoState) (id : Nat) : RemoveResult × RepoState :=
  match st.records.find? (fun r => r.id == id) with
  | none => (RemoveResult.notFound, st)
  | some r =>
    let files' := if r.image ∈ st.files then st.files.erase r.image else st.files
    (RemoveResult.ok,
      { st with records := st.records.filter (fun q => !(q.id == id)), files := files' })

/-- The status filter built by the list route (lines 99-104): the JS guard
`if (status)` treats an absent (`undefined`) or empty-string status as
falsy, so no filter is applied; any non-empty string is used verbatim as an
equality filter on `pothole_status`. -/
def statusFilter (status : Option String) : PotholeRecord → Bool :=
  match status with
  | none => fun _ => true
  | some s => if s = "" then fun _ => true else fun r => r.pothole_status == s

/-- JavaScript number results of `Math.ceil(count / limit)`: a finite
integer, `Infinity` (division of a positive count by zero), or `NaN`
(`0 / 0`). -/
inductive JSNum where
  | fin : Int → JSNum
  | inf : JSNum
  | nan : JSNum
deriving DecidableEq

/-- `Math.ceil(count / limit)` as computed by the list route (line 117),
with JavaScript semantics: division by zero yields `Infinity` (or `NaN`
when the count is also zero); otherwise the rational quotient is rounded
toward positive infinity. -/
def jsCeilDiv (count : Nat) (limit : Int) : JSNum :=
  if limit = 0 then (if count = 0 then JSNum.nan else JSNum.inf)
  else if 0 < limit then JSNum.fin (((count + limit.toNat - 1) / limit.toNat : Nat) : Int)
  else JSNum.fin (-((count / limit.natAbs : Nat) : Int))

/-- The ordering used by `.sort(\x7b createdAt: -1 \x7d)`: most recent
first. -/
def moreRecent (a b : PotholeRecord) : Prop := b.createdAt ≤ a.createdAt

instance : DecidableRel moreRecent := fun _ _ => Nat.decLe _ _

instance : IsTotal PotholeRecord moreRecent := ⟨fun a b => Nat.le_total b.createdAt a.createdAt⟩

instance : IsTrans PotholeRecord moreRecent := ⟨fun _ _ _ hab hbc => Nat.le_trans hbc hab⟩

/-- The filtered collection in `createdAt`-descending order, as produced by
`Pothole.find(query).sort(\x7b createdAt: -1 \x7d)`.  The sort is modelled
by a stable comparison sort. -/
def sortedMatches (st : RepoState) (status : Option String) : List PotholeRecord :=
  (st.records.filter (statusFilter status)).insertionSort moreRecent

/-- The JSON body answered by the list route (lines 114-120). -/
structure ListResult where
  data : List PotholeRecord
  totalPages : JSNum
  currentPage : Int
  totalRecords : Nat
deriving DecidableEq

/-- Outcome of the list route: the 200 body, or the 500 branch taken when
the datastore rejects the query. -/
inductive ListOutcome where
  | ok : ListResult → ListOutcome
  | dbError : String → ListOutcome
deriving DecidableEq

/-- The list route handler (`router.get("/list")`, lines 97-127).  `page`
and `limit` are the (numerically coerced) query parameters; the route
computes `skip = (page - 1) * limit` and delegates to the datastore, whose
documented semantics are: a negative skip is rejected (the route's catch
answers 500), a zero limit returns all remaining documents, and a negative
limit returns a single batch of at most `|limit|` documents.
`totalPages` is `Math.ceil(count / limit)` with JavaScript arithmetic. -/
def listPotholes (st : RepoState) (status : Option String) (page limit : Int) :
    ListOutcome :=
  let sorted := sortedMatches st status
  let count := (st.records.filter (statusFilter status)).length
  let skipN := (page - 1) * limit
  if skipN < 0 then ListOutcome.dbError "skip must be non-negative"
  else
    let afterSkip := sorted.drop skipN.toNat
    let data := if limit = 0 then afterSkip else afterSkip.take limit.natAbs
    ListOutcome.ok
      { data := data
        totalPages := jsCeilDiv count limit
        currentPage := page
        totalRecords := count }

/-- The items of one result page, for stating the pagination property. -/
def pageItems (st : RepoState) (page pageSize : Nat) : List PotholeRecord :=
  match listPotholes st none (page : Int) (pageSize : Int) with
  | ListOutcome.ok res => res.data
  | ListOutcome.dbError _ => []

/-- A state is well formed when every stored status is one of the schema's
enum values, which the create and update operations guarantee. -/
def StateWF (st : RepoState) : Prop :=
  ∀ r ∈ st.records, r.pothole_status ∈ allowedStatuses

/-! ### Concrete sample data used by the witness theorems -/

/-- A sample stored report. -/
def sampleRec : PotholeRecord :=
  { id := 1
    distance := some (mkRat 6 5)
    image := "/public/uploads/a.jpg"
    gps := { longitude := some 10, latitude := some 20 }
    vehicle_name := some "truck"
    vehicle_ground_level := some (mkRat 3 10)
    pothole_status := "pending"
    reportedBy := 7
    createdAt := 100
    updatedAt := 100 }

/-- Two more sample reports, created later than `sampleRec`. -/
def sampleRec2 : PotholeRecord := { sampleRec with id := 2, createdAt := 200, updatedAt := 200 }

/-- See `sampleRec2`. -/
def sampleRec3 : PotholeRecord := { sampleRec with id := 3, createdAt := 150, updatedAt := 150 }

/-- A sample repository state holding one report and its image file. -/
def sampleState : RepoState :=
  { records := [sampleRec], nextId := 2, files := {"/public/uploads/a.jpg"} }

/-- A sample repository state holding three reports. -/
def sampleState3 : RepoState :=
  { records := [sampleRec, sampleRec2, sampleRec3], nextId := 4,
    files := {"/public/uploads/a.jpg"} }

/-- A sample registration submission carrying an image and a non-numeric
distance field. -/
def sampleSub : Submission :=
  { distance := some "abc"
    longitude := some "1.5"
    latitude := some "2"
    vehicle_name := some "truck"
    vehicle_ground_level := some "0.2"
    image := some "b.jpg" }

/-! ### C1: status validation in updateStatus -/

/-- C1: for a call to `updateStatus` on an existing report, the operation
succeeds exactly when the requested status is one of
pending / inprocess / completed; for any other string it fails with the
validation error, the membership check runs before any repository access
(the outcome is the same in every repository state, which it leaves
untouched), and the stored record — status and `updatedAt` included — is
unchanged. -/
theorem updateStatus_validates_status (st : RepoState) (id : Nat) (s : String) (now : Nat)
    (r : PotholeRecord) (hex : st.records.find? (fun q => q.id == id) = some r) :
    ((∃ r', (updateStatus st id s now).1 = UpdateResult.ok r') ↔ s ∈ allowedStatuses) ∧
    (s ∉ allowedStatuses →
      (∀ st2 : RepoState, updateStatus st2 id s now =
        (UpdateResult.validationError "Invalid status value", st2)) ∧
      (updateStatus st id s now).2 = st ∧
      getById (updateStatus st id s now).2 id = GetResult.ok r) := by
  refine ⟨⟨?_, ?_⟩, ?_⟩
  · rintro ⟨r', hr'⟩
    by_contra hns
    simp [updateStatus, hns] at hr'
  · intro hs
    exact ⟨{ r with pothole_status := s, updatedAt := now }, by simp [updateStatus, hs, hex]⟩
  · intro hns
    refine ⟨fun st2 => by simp [updateStatus, hns], by simp [updateStatus, hns], ?_⟩
    simp [updateStatus, hns, getById, hex]

/-- Witness for C1 at a concrete state and the status string "archived". -/
theorem updateStatus_validates_status_witness :
    ((∃ r', (updateStatus sampleState 1 "archived" 500).1 = UpdateResult.ok r') ↔
      "archived" ∈ allowedStatuses) ∧
    ("archived" ∉ allowedStatuses →
      (∀ st2 : RepoState, updateStatus st2 1 "archived" 500 =
        (UpdateResult.validationError "Invalid status value", st2)) ∧
      (updateStatus sampleState 1 "archived" 500).2 = sampleState ∧
      getById (updateStatus sampleState 1 "archived" 500).2 1 = GetResult.ok sampleRec) :=
  updateStatus_validates_status sampleState 1 "archived" 500 sampleRec (by decide)

/-! ### C2: registration requires an image -/

/-- C2: a registration request without an image payload fails with the
validation error "Image is required" and leaves the state untouched, so in
particular no record is created and the record count is unchanged. -/
theorem register_requires_image (st : RepoState) (sub : Submission) (userId now : Nat)
    (h : sub.image = none) :
    register st sub userId now = (RegisterResult.validationError "Image is required", st) ∧
    (register st sub userId now).2.records.length = st.records.length := by
  constructor
  · simp [register, h]
  · simp [register, h]

/-- Witness for C2 at a concrete state and an imageless submission. -/
theorem register_requires_image_witness :
    register sampleState { sampleSub with image := none } 7 300 =
      (RegisterResult.validationError "Image is required", sampleState) ∧
    (register sampleState { sampleSub with image := none } 7 300).2.records.length =
      sampleState.records.length :=
  register_requires_image sampleState { sampleSub with image := none } 7 300 (by decide)

/-! ### C3: freshly registered records -/

/-- C3: every valid registration (one carrying an image) returns a stored
record whose status is pending and whose `createdAt` equals `updatedAt`;
the returned record is the one appended to the repository. -/
theorem register_fresh_record (st : RepoState) (sub : Submission) (userId now : Nat)
    (f : String) (h : sub.image = some f) :
    ∃ r, (register st sub userId now).1 = RegisterResult.created r ∧
      r.pothole_status = "pending" ∧
      r.createdAt = r.updatedAt ∧
      r ∈ (register st sub userId now).2.records := by
  refine ⟨
    { id := st.nextId
      distance := parseFloat sub.distance
      image := "/public/uploads/" ++ f
      gps := { longitude := parseFloat sub.longitude, latitude := parseFloat sub.latitude }
      vehicle_name := sub.vehicle_name
      vehicle_ground_level := parseFloat sub.vehicle_ground_level
      pothole_status := "pending"
      reportedBy := userId
      createdAt := now
      updatedAt := now }, ?_, rfl, rfl, ?_⟩
  · simp [register, h, createRecord]
  · simp [register, h, createRecord]

/-- Witness for C3 at a concrete state and submission. -/
theorem register_fresh_record_witness :
    ∃ r, (register sampleState sampleSub 7 300).1 = RegisterResult.created r ∧
      r.pothole_status = "pending" ∧
      r.createdAt = r.updatedAt ∧
      r ∈ (register sampleState sampleSub 7 300).2.records :=
  register_fresh_record sampleState sampleSub 7 300 "b.jpg" (by decide)

/-! ### C9: permissive numeric coercion -/

/-- C9: a registration that carries a valid image succeeds even when a
numeric field fails to parse as a number; the not-a-number sentinel
(`none`, modelling `NaN`) is stored for that field and the record is
created.  Relies on the spec-modelled repository `createRecord`, which
stores documents as given. -/
theorem register_tolerates_nan (st : RepoState) (sub : Submission) (userId now : Nat)
    (f : String) (h : sub.image = some f) :
    ∃ r, (register st sub userId now).1 = RegisterResult.created r ∧
      r ∈ (register st sub userId now).2.records ∧
      (parseFloat sub.distance = none → r.distance = none) ∧
      (parseFloat sub.longitude = none → r.gps.longitude = none) ∧
      (parseFloat sub.latitude = none → r.gps.latitude = none) ∧
      (parseFloat sub.vehicle_ground_level = none → r.vehicle_ground_level = none) := by
  refine ⟨
    { id := st.nextId
      distance := parseFloat sub.distance
      image := "/public/uploads/" ++ f
      gps := { longitude := parseFloat sub.longitude, latitude := parseFloat sub.latitude }
      vehicle_name := sub.vehicle_name
      vehicle_ground_level := parseFloat sub.vehicle_ground_level
      pothole_status := "pending"
      reportedBy := userId
      createdAt := now
      updatedAt := now }, ?_, ?_, fun hd => hd, fun hd => hd, fun hd => hd, fun hd => hd⟩
  · simp [register, h, createRecord]
  · simp [register, h, createRecord]

/-- Witness for C9: the sample submission's distance field "abc" fails to
parse, yet registration succeeds and stores `none` for it. -/
theorem register_tolerates_nan_witness :
    ∃ r, (register sampleState sampleSub 7 300).1 = RegisterResult.created r ∧
      r ∈ (register sampleState sampleSub 7 300).2.records ∧
      (parseFloat sampleSub.distance = none → r.distance = none) ∧
      (parseFloat sampleSub.longitude = none → r.gps.longitude = none) ∧
      (parseFloat sampleSub.latitude = none → r.gps.latitude = none) ∧
      (parseFloat sampleSub.vehicle_ground_level = none → r.vehicle_ground_level = none) :=
  register_tolerates_nan sampleState sampleSub 7 300 "b.jpg" (by decide)

/-! ### C5: deletion removes the image file and the record -/

/-- C5: `remove` on a missing id fails with not-found; on an existing
report it succeeds, the image file named by the record's image reference is
no longer present, every record with that id is gone, and when the image
file was already absent there is still no error and the record deletion
still proceeds. -/
theorem remove_deletes_image_and_record (st : RepoState) (id : Nat) :
    (st.records.find? (fun q => q.id == id) = none →
      removePothole st id = (RemoveResult.notFound, st)) ∧
    (∀ r, st.records.find? (fun q => q.id == id) = some r →
      (removePothole st id).1 = RemoveResult.ok ∧
      r.image ∉ (removePothole st id).2.files ∧
      (∀ q ∈ (removePothole st id).2.records, q.id ≠ id) ∧
      (r.image ∉ st.files →
        (removePothole st id).1 = RemoveResult.ok ∧
        ∀ q ∈ (removePothole st id).2.records, q.id ≠ id)) := by
  have hrec : ∀ r, st.records.find? (fun q => q.id == id) = some r →
      ∀ q ∈ (removePothole st id).2.records, q.id ≠ id := by
    intro r h q hq
    simp only [removePothole, h, List.mem_filter] at hq
    simpa using hq.2
  refine ⟨fun h => by simp [removePothole, h], fun r h => ⟨by simp [removePothole, h], ?_, hrec r h, fun hf => ⟨by simp [removePothole, h], hrec r h⟩⟩⟩
  by_cases hf : r.image ∈ st.files
  · simp [removePothole, h, hf]
  · simp [removePothole, h, hf]

/-- Witness for C5 at a concrete three-record state. -/
theorem remove_deletes_image_and_record_witness :
    (sampleState3.records.find? (fun q => q.id == 2) = none →
      removePothole sampleState3 2 = (RemoveResult.notFound, sampleState3)) ∧
    (∀ r, sampleState3.records.find? (fun q => q.id == 2) = some r →
      (removePothole sampleState3 2).1 = RemoveResult.ok ∧
      r.image ∉ (removePothole sampleState3 2).2.files ∧
      (∀ q ∈ (removePothole sampleState3 2).2.records, q.id ≠ 2) ∧
      (r.image ∉ sampleState3.files →
        (removePothole sampleState3 2).1 = RemoveResult.ok ∧
        ∀ q ∈ (removePothole sampleState3 2).2.records, q.id ≠ 2)) :=
  remove_deletes_image_and_record sampleState3 2

/-! ### C6: missing ids fail with not-found -/

/-- C6: on an id that identifies no stored report, `getById` answers
not-found, `remove` answers not-found leaving the state untouched,
`updateStatus` with any allowed status answers not-found leaving the state
untouched, and `updateStatus` never reports success for any status string
(with a status outside the enum it fails with the validation error
instead, per C1). -/
theorem missing_id_not_found (st : RepoState) (id : Nat) (now : Nat)
    (h : st.records.find? (fun q => q.id == id) = none) :
    getById st id = GetResult.notFound ∧
    removePothole st id = (RemoveResult.notFound, st) ∧
    (∀ s ∈ allowedStatuses, updateStatus st id s now = (UpdateResult.notFound, st)) ∧
    (∀ s r', (updateStatus st id s now).1 ≠ UpdateResult.ok r') := by
  refine ⟨by simp [getById, h], by simp [removePothole, h], ?_, ?_⟩
  · intro s hs
    simp [updateStatus, hs, h]
  · intro s r' hok
    by_cases hs : s ∈ allowedStatuses
    · simp [updateStatus, hs, h] at hok
    · simp [updateStatus, hs] at hok

/-- Witness for C6 at a concrete state and the unused id 9. -/
theorem missing_id_not_found_witness :
    getById sampleState 9 = GetResult.notFound ∧
    removePothole sampleState 9 = (RemoveResult.notFound, sampleState) ∧
    (∀ s ∈ allowedStatuses, updateStatus sampleState 9 s 500 =
      (UpdateResult.notFound, sampleState)) ∧
    (∀ s r', (updateStatus sampleState 9 s 500).1 ≠ UpdateResult.ok r') :=
  missing_id_not_found sampleState 9 500 (by decide)

/-! ### C7: updateStatus mutates only status and updatedAt -/

/-- Auxiliary: looking up the updated id after replacing every matching
record yields the replacement. -/
theorem find?_map_update (l : List PotholeRecord) (id : Nat) (r r' : PotholeRecord)
    (h : l.find? (fun q => q.id == id) = some r) (hid : r'.id = id) :
    (l.map (fun q => if q.id == id then r' else q)).find? (fun q => q.id == id) = some r' := by
  induction l with
  | nil => simp at h
  | cons a l ih =>
    by_cases ha : a.id = id
    · simp [ha, hid]
    · have hne : (a.id == id) = false := by simp [ha]
      rw [List.find?_cons_of_neg _ (by simp [ha])] at h
      simpa [ha, hne] using ih h

/-- C7: a successful `updateStatus` changes only the status and
`updatedAt` of the targeted record: `createdAt`, the image reference, the
reporter, the GPS pair, the distance, the vehicle name and the vehicle
ground level are unchanged; the new `updatedAt` is the request time, hence
at least the previous value whenever the clock has not gone backwards;
the updated record is the one now stored, the file store is untouched and
every other record is still present. -/
theorem updateStatus_frame (st : RepoState) (id : Nat) (s : String) (now : Nat)
    (r' : PotholeRecord) (st' : RepoState)
    (h : updateStatus st id s now = (UpdateResult.ok r', st')) :
    ∃ r, st.records.find? (fun q => q.id == id) = some r ∧
      r'.pothole_status = s ∧
      r'.updatedAt = now ∧
      r'.createdAt = r.createdAt ∧
      r'.image = r.image ∧
      r'.reportedBy = r.reportedBy ∧
      r'.gps = r.gps ∧
      r'.distance = r.distance ∧
      r'.vehicle_name = r.vehicle_name ∧
      r'.vehicle_ground_level = r.vehicle_ground_level ∧
      (r.updatedAt ≤ now → r.updatedAt ≤ r'.updatedAt) ∧
      getById st' id = GetResult.ok r' ∧
      st'.files = st.files ∧
      (∀ q ∈ st.records, q.id ≠ id → q ∈ st'.records) := by
  by_cases hs : s ∈ allowedStatuses
  case neg => simp [updateStatus, hs] at h
  simp only [updateStatus, hs, not_true_eq_false, if_false] at h
  cases hfind : st.records.find? (fun q => q.id == id) with
  | none => rw [hfind] at h; simp at h
  | some r =>
    rw [hfind] at h
    simp only [Prod.mk.injEq, UpdateResult.ok.injEq] at h
    obtain ⟨hr', hst'⟩ := h
    subst hr'
    subst hst'
    have hrid : r.id = id := by
      have := List.find?_some hfind
      simpa using this
    refine ⟨r, rfl, rfl, rfl, rfl, rfl, rfl, rfl, rfl, rfl, rfl, fun hc => hc, ?_, rfl, ?_⟩
    · have hfound :
        (st.records.map (fun q => if q.id == id then
            { r with pothole_status := s, updatedAt := now } else q)).find?
          (fun q => q.id == id) =
          some { r with pothole_status := s, updatedAt := now } :=
        find?_map_update st.records id r _ hfind hrid
      simp only [getById, hfound]
    · intro q hq hqne
      exact List.mem_map.mpr ⟨q, hq, by simp [hqne]⟩

/-- Witness for C7 at a concrete successful status update. -/
theorem updateStatus_frame_witness :
    ∃ r, sampleState.records.find? (fun q => q.id == 1) = some r ∧
      ({ sampleRec with pothole_status := "completed", updatedAt := 500 } :
          PotholeRecord).pothole_status = "completed" ∧
      ({ sampleRec with pothole_status := "completed", updatedAt := 500 } :
          PotholeRecord).updatedAt = 500 ∧
      ({ sampleRec with pothole_status := "completed", updatedAt := 500 } :
          PotholeRecord).createdAt = r.createdAt ∧
      ({ sampleRec with pothole_status := "completed", updatedAt := 500 } :
          PotholeRecord).image = r.image ∧
      ({ sampleRec with pothole_status := "completed", updatedAt := 500 } :
          PotholeRecord).reportedBy = r.reportedBy ∧
      ({ sampleRec with pothole_status := "completed", updatedAt := 500 } :
          PotholeRecord).gps = r.gps ∧
      ({ sampleRec with pothole_status := "completed", updatedAt := 500 } :
          PotholeRecord).distance = r.distance ∧
      ({ sampleRec with pothole_status := "completed", updatedAt := 500 } :
          PotholeRecord).vehicle_name = r.vehicle_name ∧
      ({ sampleRec with pothole_status := "completed", updatedAt := 500 } :
          PotholeRecord).vehicle_ground_level = r.vehicle_ground_level ∧
      (r.updatedAt ≤ 500 →
        r.updatedAt ≤ ({ sampleRec with pothole_status := "completed", updatedAt := 500 } :
          PotholeRecord).updatedAt) ∧
      getById { sampleState with
          records := [{ sampleRec with pothole_status := "completed", updatedAt := 500 }] } 1 =
        GetResult.ok { sampleRec with pothole_status := "completed", updatedAt := 500 } ∧
      ({ sampleState with
          records := [{ sampleRec with pothole_status := "completed", updatedAt := 500 }] } :
            RepoState).files = sampleState.files ∧
      (∀ q ∈ sampleState.records, q.id ≠ 1 →
        q ∈ ({ sampleState with
          records := [{ sampleRec with pothole_status := "completed", updatedAt := 500 }] } :
            RepoState).records) :=
  updateStatus_frame sampleState 1 "completed" 500
    { sampleRec with pothole_status := "completed", updatedAt := 500 }
    { sampleState with
      records := [{ sampleRec with pothole_status := "completed", updatedAt := 500 }] }
    (by decide)

/-! ### C10: the status filter of the list query -/

/-- C10: in a well-formed state, an absent status parameter and an
empty-string status parameter apply no filter (the query behaves the same
and counts every report), a non-empty status string is used verbatim (every
returned item carries exactly that status), and an unknown non-empty status
yields an empty page with zero total records instead of an error. -/
theorem list_status_filter (st : RepoState) (hwf : StateWF st) :
    (∀ page limit : Int, listPotholes st none page limit =
      listPotholes st (some "") page limit) ∧
    (∀ page limit : Int, ∀ res, listPotholes st none page limit = ListOutcome.ok res →
      res.totalRecords = st.records.length) ∧
    (∀ s : String, s ≠ "" → ∀ page limit : Int, ∀ res,
      listPotholes st (some s) page limit = ListOutcome.ok res →
      ∀ r ∈ res.data, r.pothole_status = s) ∧
    (∀ s : String, s ≠ "" → s ∉ allowedStatuses → ∀ page limit : Int,
      1 ≤ page → 1 ≤ limit →
      listPotholes st (some s) page limit =
        ListOutcome.ok
          { data := [], totalPages := JSNum.fin 0, currentPage := page, totalRecords := 0 }) := by
  refine ⟨?_, ?_, ?_, ?_⟩
  · intro page limit
    simp [listPotholes, sortedMatches, statusFilter]
  · intro page limit res h
    simp only [listPotholes] at h
    split at h
    · simp at h
    · rw [ListOutcome.ok.injEq] at h
      rw [← h]
      simp [statusFilter, List.filter_true]
  · intro s hs page limit res h r hr
    simp only [listPotholes] at h
    split at h
    · simp at h
    · rw [ListOutcome.ok.injEq] at h
      subst h
      dsimp only at hr
      have hmem : r ∈ (st.records.filter (statusFilter (some s))).insertionSort moreRecent := by
        by_cases h0 : limit = 0
        · rw [if_pos h0] at hr
          simp only [sortedMatches] at hr
          exact List.drop_subset _ _ hr
        · rw [if_neg h0] at hr
          simp only [sortedMatches] at hr
          exact List.drop_subset _ _ (List.take_subset _ _ hr)
      have hpred := (List.mem_filter.mp ((List.mem_insertionSort moreRecent).mp hmem)).2
      simp only [statusFilter, if_neg hs] at hpred
      simpa using hpred
  · intro s hs hsa page limit hpage hlimit
    have hskip : ¬ (page - 1) * limit < 0 := by
      have h1 : (0 : Int) ≤ page - 1 := by omega
      have h2 : (0 : Int) ≤ limit := by omega
      have := mul_nonneg h1 h2
      omega
    have hnil : st.records.filter (statusFilter (some s)) = [] := by
      rw [List.filter_eq_nil_iff]
      intro r hr
      simp only [statusFilter, if_neg hs]
      intro hb
      have hr' : r.pothole_status = s := by simpa using hb
      exact hsa (hr' ▸ hwf r hr)
    have hlz : ¬ limit = 0 := by omega
    have hceil : jsCeilDiv 0 limit = JSNum.fin 0 := by
      have hpos : (0 : Int) < limit := by omega
      have hdiv : (0 + limit.toNat - 1) / limit.toNat = 0 := Nat.div_eq_of_lt (by omega)
      simp only [jsCeilDiv, if_neg hlz, if_pos hpos, hdiv]
      simp
    simp only [listPotholes, sortedMatches, hnil, List.insertionSort, if_neg hskip,
      List.drop_nil, List.take_nil, if_neg hlz, List.length_nil, hceil]

/-! ### C4: pagination of the list query -/

/-- Auxiliary: splitting a `take` of a sum. -/
theorem take_add' : ∀ (m n : Nat) (l : List α), l.take (m + n) = l.take m ++ (l.drop m).take n
  | 0, _, l => by simp
  | _ + 1, _, [] => by simp
  | m + 1, n, a :: l => by
    rw [Nat.succ_add, List.take_succ_cons, List.take_succ_cons, List.drop_succ_cons,
      List.cons_append, take_add' m n l]

/-- Auxiliary: concatenating the first `k` chunks of size `P` of a list
yields its first `k * P` elements. -/
theorem flatten_chunks (P : Nat) (l : List α) :
    ∀ k : Nat, ((List.range k).map (fun i => (l.drop (i * P)).take P)).flatten =
      l.take (k * P) := by
  intro k
  induction k with
  | zero => simp
  | succ k ih =>
    rw [List.range_succ, List.map_append, List.flatten_append, ih]
    simp only [List.map_cons, List.map_nil, List.flatten_cons, List.flatten_nil,
      List.append_nil]
    rw [Nat.succ_mul, take_add']

/-- Auxiliary: `n` elements fit into `ceil(n / p)` pages of size `p`. -/
theorem le_ceil_mul (n p : Nat) (hp : 0 < p) : n ≤ ((n + p - 1) / p) * p := by
  have h2 : n + p - 1 < ((n + p - 1) / p) * p + p := by
    conv_lhs => rw [← Nat.div_add_mod (n + p - 1) p]
    rw [Nat.mul_comm]
    exact Nat.add_lt_add_left (Nat.mod_lt _ hp) _
  omega

/-- Auxiliary: the ceiling of the rational quotient of naturals is the
rounded-up natural division. -/
theorem ceil_div_eq (n p : Nat) (hp : 0 < p) :
    ⌈(n : ℚ) / (p : ℚ)⌉ = (((n + p - 1) / p : Nat) : Int) := by
  have hp' : (0 : ℚ) < (p : ℚ) := by exact_mod_cast hp
  have h1 : ((n + p - 1) / p : Nat) * p ≤ n + p - 1 := Nat.div_mul_le_self _ _
  have h2 : n + p - 1 < ((n + p - 1) / p : Nat) * p + p := by
    conv_lhs => rw [← Nat.div_add_mod (n + p - 1) p]
    rw [Nat.mul_comm]
    exact Nat.add_lt_add_left (Nat.mod_lt _ hp) _
  have hn_le : n ≤ ((n + p - 1) / p : Nat) * p := by omega
  have hlb : ((n + p - 1) / p : Nat) * p < n + p := by omega
  rw [Int.ceil_eq_iff]
  simp only [Int.cast_natCast]
  constructor
  · rw [lt_div_iff₀ hp']
    have hc : (((n + p - 1) / p : Nat) : ℚ) * (p : ℚ) < (n : ℚ) + (p : ℚ) := by
      exact_mod_cast hlb
    linarith
  · rw [div_le_iff₀ hp']
    exact_mod_cast hn_le

/-- Auxiliary: for positive page and page size, the list route succeeds and
returns the documented page slice of the sorted collection, the count, and
the JavaScript page total. -/
theorem listPotholes_ok (st : RepoState) (P p : Nat) (hP : 1 ≤ P) (hp : 1 ≤ p) :
    listPotholes st none (p : Int) (P : Int) =
      ListOutcome.ok
        { data := ((st.records.insertionSort moreRecent).drop ((p - 1) * P)).take P
          totalPages := jsCeilDiv st.records.length (P : Int)
          currentPage := (p : Int)
          totalRecords := st.records.length } := by
  have hfilter : st.records.filter (statusFilter none) = st.records := by
    simp [statusFilter, List.filter_true]
  have hskip : ¬ ((p : Int) - 1) * (P : Int) < 0 :=
    not_lt.mpr (mul_nonneg (by omega) (by omega))
  have htoNat : (((p : Int) - 1) * (P : Int)).toNat = (p - 1) * P := by
    rw [show ((p : Int) - 1) = ((p - 1 : Nat) : Int) by omega, ← Nat.cast_mul,
      Int.toNat_ofNat]
  have hPz : ¬ ((P : Int) = 0) := by omega
  simp only [listPotholes, sortedMatches, hfilter, if_neg hskip, htoNat, if_neg hPz,
    Int.natAbs_ofNat]

/-- C4: list pagination over the whole collection with page size `P ≥ 1`:
every page `p ≥ 1` succeeds, its items are the documented slice — skip
`(p-1)*P`, take `P` — of the collection sorted by `createdAt` descending
and are themselves so ordered, the reported totals are the record count and
`ceil(count / P)`, the number of pages equals that ceiling, and
concatenating all pages in order reproduces every stored record exactly
once (a permutation of the collection). -/
theorem list_pagination (st : RepoState) (P : Nat) (hP : 1 ≤ P) :
    (∀ p : Nat, 1 ≤ p →
      ∃ res, listPotholes st none (p : Int) (P : Int) = ListOutcome.ok res ∧
        res.data = ((sortedMatches st none).drop ((p - 1) * P)).take P ∧
        res.data.Pairwise (fun a b => b.createdAt ≤ a.createdAt) ∧
        res.totalRecords = st.records.length ∧
        res.totalPages = JSNum.fin ⌈(st.records.length : ℚ) / (P : ℚ)⌉) ∧
    ((((st.records.length + P - 1) / P : Nat) : Int) =
      ⌈(st.records.length : ℚ) / (P : ℚ)⌉) ∧
    ((List.range ((st.records.length + P - 1) / P)).map
      (fun i => pageItems st (i + 1) P)).flatten.Perm st.records := by
  have hsort_eq : sortedMatches st none = st.records.insertionSort moreRecent := by
    simp [sortedMatches, statusFilter, List.filter_true]
  have hsorted : (st.records.insertionSort moreRecent).Pairwise moreRecent :=
    List.sorted_insertionSort moreRecent st.records
  have hlen : (st.records.insertionSort moreRecent).length = st.records.length :=
    (List.perm_insertionSort moreRecent st.records).length_eq
  have hceil : jsCeilDiv st.records.length (P : Int) =
      JSNum.fin ⌈(st.records.length : ℚ) / (P : ℚ)⌉ := by
    have hPz : ¬ ((P : Int) = 0) := by omega
    simp only [jsCeilDiv, if_neg hPz, if_pos (by omega : (0 : Int) < (P : Int)),
      Int.toNat_ofNat, Int.natAbs_ofNat]
    rw [ceil_div_eq st.records.length P (by omega)]
  refine ⟨?_, ?_, ?_⟩
  · intro p hp
    refine ⟨_, listPotholes_ok st P p hP hp, ?_, ?_, rfl, hceil⟩
    · rw [hsort_eq]
    · exact List.Pairwise.sublist
        ((List.take_sublist _ _).trans (List.drop_sublist _ _)) hsorted
  · exact (ceil_div_eq st.records.length P (by omega)).symm
  · have hpagei : ∀ i : Nat, pageItems st (i + 1) P =
        ((st.records.insertionSort moreRecent).drop (i * P)).take P := by
      intro i
      simp only [pageItems, listPotholes_ok st P (i + 1) hP (by omega),
        Nat.add_sub_cancel]
    rw [List.map_congr_left (fun i _ => hpagei i), flatten_chunks,
      List.take_of_length_le (by rw [hlen]; exact le_ceil_mul _ _ (by omega))]
    exact List.perm_insertionSort moreRecent st.records

/-- Witness for C4 at a concrete three-record state with page size 2. -/
theorem list_pagination_witness :
    (∀ p : Nat, 1 ≤ p →
      ∃ res, listPotholes sampleState3 none (p : Int) (2 : Int) = ListOutcome.ok res ∧
        res.data = ((sortedMatches sampleState3 none).drop ((p - 1) * 2)).take 2 ∧
        res.data.Pairwise (fun a b => b.createdAt ≤ a.createdAt) ∧
        res.totalRecords = sampleState3.records.length ∧
        res.totalPages = JSNum.fin ⌈(sampleState3.records.length : ℚ) / (2 : ℚ)⌉) ∧
    ((((sampleState3.records.length + 2 - 1) / 2 : Nat) : Int) =
      ⌈(sampleState3.records.length : ℚ) / (2 : ℚ)⌉) ∧
    ((List.range ((sampleState3.records.length + 2 - 1) / 2)).map
      (fun i => pageItems sampleState3 (i + 1) 2)).flatten.Perm sampleState3.records :=
  list_pagination sampleState3 2 (by decide)

/-- Witness for C10 at a concrete well-formed three-record state. -/
theorem list_status_filter_witness :
    (∀ page limit : Int, listPotholes sampleState3 none page limit =
      listPotholes sampleState3 (some "") page limit) ∧
    (∀ page limit : Int, ∀ res,
      listPotholes sampleState3 none page limit = ListOutcome.ok res →
      res.totalRecords = sampleState3.records.length) ∧
    (∀ s : String, s ≠ "" → ∀ page limit : Int, ∀ res,
      listPotholes sampleState3 (some s) page limit = ListOutcome.ok res →
      ∀ r ∈ res.data, r.pothole_status = s) ∧
    (∀ s : String, s ≠ "" → s ∉ allowedStatuses → ∀ page limit : Int,
      1 ≤ page → 1 ≤ limit →
      listPotholes sampleState3 (some s) page limit =
        ListOutcome.ok
          { data := [], totalPages := JSNum.fin 0, currentPage := page,
            totalRecords := 0 }) :=
  list_status_filter sampleState3 (by unfold StateWF; decide)

/-! ### C8: no defensive clamping of page / pageSize -/

/-- C8 counterexample: the route does not treat an out-of-range parameter
as 1.  With pageSize 0 the query succeeds but reports `totalPages`
Infinity (JavaScript `Math.ceil(1 / 0)`) instead of the `totalPages = 1`
that pageSize 1 yields, so the two results differ; with page 0 the
computed skip is negative and the operation fails instead of behaving like
page 1. -/
theorem list_no_clamp_counterexample :
    listPotholes sampleState none 1 0 =
      ListOutcome.ok
        { data := [sampleRec], totalPages := JSNum.inf, currentPage := 1,
          totalRecords := 1 } ∧
    listPotholes sampleState none 1 1 =
      ListOutcome.ok
        { data := [sampleRec], totalPages := JSNum.fin 1, currentPage := 1,
          totalRecords := 1 } ∧
    listPotholes sampleState none 1 0 ≠ listPotholes sampleState none 1 1 ∧
    listPotholes sampleState none 0 10 = ListOutcome.dbError "skip must be non-negative" ∧
    listPotholes sampleState none 0 10 ≠ listPotholes sampleState none 1 10 :=
  ⟨by decide, by decide, by decide, by decide, by decide⟩

/-- C8 amended: the route applies no clamping.  A query with page ≥ 1 and
pageSize ≥ 1 succeeds; a query with page < 1 and pageSize ≥ 1 computes a
negative skip and fails (it is not treated as page 1); a query with
pageSize = 0 on a non-empty collection succeeds but returns every matching
record and reports `totalPages` Infinity (it is not treated as
pageSize 1). -/
theorem list_no_clamp (st : RepoState) (page limit : Int) :
    (1 ≤ page → 1 ≤ limit →
      ∃ res, listPotholes st none page limit = ListOutcome.ok res) ∧
    (page < 1 → 1 ≤ limit →
      listPotholes st none page limit = ListOutcome.dbError "skip must be non-negative") ∧
    (limit = 0 → 0 < st.records.length →
      ∃ res, listPotholes st none page limit = ListOutcome.ok res ∧
        res.totalPages = JSNum.inf ∧
        res.data = sortedMatches st none) := by
  have hfilter : st.records.filter (statusFilter none) = st.records := by
    simp [statusFilter, List.filter_true]
  refine ⟨?_, ?_, ?_⟩
  · intro hp hl
    have hskip : ¬ (page - 1) * limit < 0 :=
      not_lt.mpr (mul_nonneg (by omega) (by omega))
    cases hres : listPotholes st none page limit with
    | ok res => exact ⟨res, rfl⟩
    | dbError e =>
      simp only [listPotholes, if_neg hskip] at hres
      exact ListOutcome.noConfusion hres
  · intro hp hl
    have hskip : (page - 1) * limit < 0 :=
      mul_neg_of_neg_of_pos (by omega) (by omega)
    simp only [listPotholes, if_pos hskip]
  · intro hl hcount
    subst hl
    have hcz : ¬ st.records.length = 0 := by omega
    refine ⟨{ data := sortedMatches st none, totalPages := JSNum.inf,
              currentPage := page, totalRecords := st.records.length }, ?_, rfl, rfl⟩
    simp [listPotholes, sortedMatches, jsCeilDiv, hfilter, hcz]

/-- Witness for the amended C8 at a concrete one-record state. -/
theorem list_no_clamp_witness :
    (1 ≤ (1 : Int) → 1 ≤ (0 : Int) →
      ∃ res, listPotholes sampleState none 1 0 = ListOutcome.ok res) ∧
    ((1 : Int) < 1 → 1 ≤ (0 : Int) →
      listPotholes sampleState none 1 0 = ListOutcome.dbError "skip must be non-negative") ∧
    ((0 : Int) = 0 → 0 < sampleState.records.length →
      ∃ res, listPotholes sampleState none 1 0 = ListOutcome.ok res ∧
        res.totalPages = JSNum.inf ∧
        res.data = sortedMatches sampleState none) :=
  list_no_clamp sampleState 1 0

end Spothole
